import Mathlib

/-!
Verification development for the RepoRecon audio-bridge backend
(`backend/main.py` and `backend/tools.py`).

The Python source is shallowly embedded: pure logic becomes Lean functions,
external effects (the GitHub API, the Gemini live session, tool invocation in
a worker thread) become explicit oracle parameters, and the per-connection
loops become step functions over explicit state and frame/event lists.
-/

namespace RepoRecon

/-! ## Embedding of `backend/tools.py` -/

/-- A GitHub issue as observed by `scout_github_issues`: its number, title,
and the `pull_request` attribute (`none` when the item is a real issue,
`some ()` when it is a pull request). -/
structure Issue where
  number : Nat
  title : String
  pull_request : Option Unit
deriving DecidableEq

/-- The data the two label queries of `scout_github_issues` return:
`repo.get_issues(state='open', labels=['good first issue'])` and
`repo.get_issues(state='open', labels=['help wanted'])`, in iteration order. -/
structure RepoIssues where
  good_first : List Issue
  help_wanted : List Issue
deriving DecidableEq

/-- First loop of `scout_github_issues` (tools.py lines 25-29): append each
non-PR issue from the `good first issue` query, breaking once three issues
have been collected. -/
def scoutLoop1 (acc : List Issue) : List Issue → List Issue
  | [] => acc
  | i :: rest =>
    if i.pull_request.isNone then
      let acc' := acc ++ [i]
      if 3 ≤ acc'.length then acc' else scoutLoop1 acc' rest
    else
      scoutLoop1 acc rest

/-- Second loop of `scout_github_issues` (tools.py lines 32-36): append each
non-PR `help wanted` issue not already collected, breaking once three issues
have been collected. -/
def fillLoop (found : List Issue) : List Issue → List Issue
  | [] => found
  | i :: rest =>
    if i.pull_request.isNone ∧ i ∉ found then
      let found' := found ++ [i]
      if 3 ≤ found'.length then found' else fillLoop found' rest
    else
      fillLoop found rest

/-- The `found_issues` list built by `scout_github_issues` (tools.py lines
24-36): the first loop over the `good first issue` query, then -- only when
fewer than three were found -- the fill loop over the `help wanted` query. -/
def selectedIssues (r : RepoIssues) : List Issue :=
  let found := scoutLoop1 [] r.good_first
  if found.length < 3 then fillLoop found r.help_wanted else found

/-- `tools.scout_github_issues` (tools.py lines 4-47). The GitHub access is
abstracted by `api`: `.ok r` gives the results of the two label queries,
`.error e` is any exception raised inside the `try` block (repo not found,
auth failure, network error), whose message the `except` branch embeds in
the returned string. The function is total: it never raises. -/
def scout_github_issues (repo_name : String) (api : Except String RepoIssues) : String :=
  match api with
  | .error e => "Error fetching issues for " ++ repo_name ++ ". Exception: " ++ e
  | .ok repo =>
    let found := selectedIssues repo
    if found.isEmpty then
      "No open \x27good first issue\x27 or \x27help wanted\x27 issues found in "
        ++ repo_name ++ "."
    else
      found.foldl
        (fun s i => s ++ "- Issue #" ++ toString i.number ++ ": " ++ i.title ++ "\n")
        ("Found " ++ toString found.length ++ " issues in " ++ repo_name ++ ":\n")

/-- `tools.analyze_issue_code` (tools.py lines 50-62): a fixed mocked
summary mentioning the repository name and issue number. -/
def analyze_issue_code (repo_name : String) (issue_number : Nat) : String :=
  "Fetched issue details for " ++ repo_name ++ " #" ++ toString issue_number
    ++ ". The bug appears to be in the routing module. Here is a mocked plan of attack..."

/-- String `t` occurs as a substring of `s`. -/
def containsStr (s t : String) : Prop :=
  ∃ p q, s = p ++ t ++ q

/-! ## Embedding of the tool adapter in `backend/main.py` (`send_to_client`) -/

/-- Tool-call arguments: the `args` mapping of an upstream function call,
passed through unchanged to the notification and to the invocation. -/
abbrev Args := List (String × String)

/-- One named function call inside an upstream `tool_call` event:
`call.name`, `call.id` (the correlation id) and `call.args`
(main.py lines 184-187). -/
structure FunctionCall where
  name : String
  id : String
  args : Args
deriving DecidableEq

/-- The payload of a `types.FunctionResponse`: either
`{"result": result}` or `{"error": message}` (main.py lines 211, 218, 225). -/
inductive ToolOutcome where
  | result (r : String)
  | error (e : String)
deriving DecidableEq

/-- A `types.FunctionResponse` sent back to the Gemini session: tool name,
correlation id, and payload (main.py lines 208-226). -/
structure FunctionResponse where
  name : String
  id : String
  response : ToolOutcome
deriving DecidableEq

/-- The `{"type": "tool_execution", "function": name, "arguments": args}`
JSON notification sent to the client before a tool is dispatched
(main.py lines 195-200). -/
structure UiEvent where
  type : String
  function : String
  arguments : Args
deriving DecidableEq

/-- The fixed tool mapping `AVAILABLE_TOOLS` (main.py lines 32-35),
embedded as the set of registered names; the mapped functions are
`scout_github_issues` and `analyze_issue_code` from `tools.py`. -/
def AVAILABLE_TOOLS : List String :=
  ["scout_github_issues", "analyze_issue_code"]

/-- The tool names registered in `LIVE_CONFIG` (main.py line 39):
`tools=[scout_github_issues, analyze_issue_code]`, handed to the upstream
SDK session for automatic execution. -/
def LIVE_CONFIG_tools : List String :=
  ["scout_github_issues", "analyze_issue_code"]

/-- Outcome oracle for invoking a registered tool in a worker thread
(`await asyncio.to_thread(func, **args)`, main.py line 207): `.ok r` is the
string the function returned, `.error e` is the message `str(e)` of any
exception the invocation raised. -/
def ToolExec := String → Args → Except String String

/-- Handling of one function call inside `send_to_client`
(main.py lines 195-226): first the `tool_execution` notification is sent to
the client, then the name is looked up in `AVAILABLE_TOOLS`; a registered
tool is invoked and its result or caught exception becomes the response
payload, an unregistered name yields the `Unknown tool` error payload. The
function is total: no exception escapes the dispatch step. -/
def processCall (exec : ToolExec) (call : FunctionCall) : UiEvent × FunctionResponse :=
  let ui : UiEvent := ⟨"tool_execution", call.name, call.args⟩
  let resp : FunctionResponse :=
    if call.name ∈ AVAILABLE_TOOLS then
      match exec call.name call.args with
      | .ok r => ⟨call.name, call.id, .result r⟩
      | .error e => ⟨call.name, call.id, .error e⟩
    else
      ⟨call.name, call.id, .error ("Unknown tool: " ++ call.name)⟩
  (ui, resp)

/-- Handling of a whole `tool_call` event (main.py lines 180-230): each call
in `function_calls` is processed in order; the first components are the
client notifications, the second the batch of `function_responses` sent back
via `session.send_tool_response`. -/
def processToolCall (exec : ToolExec) (calls : List FunctionCall) :
    List UiEvent × List FunctionResponse :=
  (calls.map (fun c => (processCall exec c).1),
   calls.map (fun c => (processCall exec c).2))

/-! ## Embedding of `receive_from_client` in `backend/main.py` -/

/-- A websocket message as read by `await websocket.receive()`
(main.py lines 105-118), classified the way the loop classifies it:
the disconnect event, an unsupported event type, a binary frame carrying
audio bytes, a frame with neither bytes nor text, or a text frame. A text
frame carries the outcome of `json.loads` followed by `payload.get("type")`:
`none` when the text is not valid JSON, `some t` when it is, where `t` is
the value of the `"type"` field when that value is a string and `none`
otherwise (the code only ever compares it to `"end_turn"`). -/
inductive WsFrame where
  | disconnectEvent
  | unsupported (t : String)
  | binaryFrame (data : List Nat)
  | emptyFrame
  | textFrame (parsed : Option (Option String))
deriving DecidableEq

/-- A send into the Gemini session performed by `receive_from_client`:
`session.send(input={"data": data, "mime_type": ...}, end_of_turn=False)`
for audio (main.py lines 125-129) and `session.send(end_of_turn=True)`
from `finalize_turn` (main.py line 100). -/
inductive UpstreamSend where
  | audio (data : List Nat) (end_of_turn : Bool)
  | turnEnd
deriving DecidableEq

/-- State of the client-receive loop: the `turn_open` flag, whether the loop
has exited (`break`), and the shutdown reason passed to `initiate_shutdown`
if any. -/
structure RecvState where
  turn_open : Bool
  stopped : Bool
  shutdown : Option String
deriving DecidableEq

/-- Result of running (part of) the receive loop: final state, the ordered
trace of sends into the Gemini session, and the ordered log lines. -/
structure RunOut where
  state : RecvState
  sends : List UpstreamSend
  logs : List String
deriving DecidableEq

/-- `finalize_turn(source)` (main.py lines 93-101): when no utterance is
open, log the ignore diagnostic and send nothing; otherwise send
`end_of_turn=True` and close the utterance. Returns the new `turn_open`
flag, the sends, and the logs. -/
def finalize_turn (source : String) (turn_open : Bool) :
    Bool × List UpstreamSend × List String :=
  if turn_open then
    (false, [UpstreamSend.turnEnd],
      ["[TURN] Finalizing utterance from " ++ source ++ " (end_of_turn=True)"])
  else
    (false, [],
      ["[TURN] Ignoring end-turn from " ++ source ++ "; no active utterance"])

/-- One iteration of the `receive_from_client` loop body
(main.py lines 104-145) on a single websocket message. -/
def receiveStep (st : RecvState) (f : WsFrame) : RunOut :=
  match f with
  | .disconnectEvent =>
    let (op, s, l) := finalize_turn "client websocket close event" st.turn_open
    ⟨⟨op, true, some "client websocket close"⟩, s, l⟩
  | .unsupported t =>
    ⟨st, [], ["[WS] Ignoring unsupported websocket event type: " ++ t]⟩
  | .binaryFrame data =>
    let l := if st.turn_open then []
             else ["[TURN] New utterance started (first audio chunk)"]
    ⟨⟨true, st.stopped, st.shutdown⟩, [UpstreamSend.audio data false], l⟩
  | .emptyFrame =>
    ⟨st, [], ["[WS] Received empty websocket frame; ignoring"]⟩
  | .textFrame none =>
    ⟨st, [], ["[WS] Ignoring non-JSON text frame"]⟩
  | .textFrame (some t) =>
    if t = some "end_turn" then
      let (op, s, l) := finalize_turn "client control message" st.turn_open
      ⟨⟨op, st.stopped, st.shutdown⟩, s, l⟩
    else
      ⟨st, [], ["[WS] Ignoring unknown control payload"]⟩

/-- The `receive_from_client` loop over a list of incoming messages:
process them in order, stopping (ignoring the rest) once the loop has
exited via `break` on a disconnect event. -/
def receiveLoop (st : RecvState) : List WsFrame → RunOut
  | [] => ⟨st, [], []⟩
  | f :: rest =>
    if st.stopped then ⟨st, [], []⟩
    else
      let o := receiveStep st f
      let r := receiveLoop o.state rest
      ⟨r.state, o.sends ++ r.sends, o.logs ++ r.logs⟩

/-- `receive_from_client` (main.py lines 90-152) run from its initial state
(`turn_open = False`, loop live, no shutdown yet) on a message sequence. -/
def receive_from_client (frames : List WsFrame) : RunOut :=
  receiveLoop ⟨false, false, none⟩ frames

/-- Per-frame decomposition of the send trace: the list whose `i`-th entry
is the list of upstream sends performed while handling the `i`-th frame,
threading the `turn_open` flag exactly as the loop does. -/
def receiveSendParts (turn_open : Bool) : List WsFrame → List (List UpstreamSend)
  | [] => []
  | f :: rest =>
    let o := receiveStep ⟨turn_open, false, none⟩ f
    o.sends :: receiveSendParts o.state.turn_open rest

/-! ## Embedding of shutdown handling in `websocket_gemini` (`backend/main.py`) -/

/-- The task from which `initiate_shutdown` is called
(`asyncio.current_task()`): every call site is inside `receive_from_client`
(main.py lines 110, 148, 152) or inside `send_to_client`
(main.py lines 288, 292). -/
inductive TaskId where
  | receiveTask
  | sendTask
deriving DecidableEq

/-- The shutdown bookkeeping shared by the two loops of `websocket_gemini`:
the `shutdown_reason` guarded by `shutdown_lock`, the outer
`session_shutdown_reason`, and for each task whether it has finished and
whether `task.cancel()` has been called on it. -/
structure ShutdownState where
  shutdown_reason : String
  session_shutdown_reason : String
  receive_done : Bool
  send_done : Bool
  receive_cancelled : Bool
  send_cancelled : Bool
deriving DecidableEq

/-- The state right after both tasks are created (main.py lines 60, 68,
294-295): no shutdown recorded, both tasks running and uncancelled. -/
def initialShutdownState : ShutdownState :=
  { shutdown_reason := "unknown"
    session_shutdown_reason := "not established"
    receive_done := false
    send_done := false
    receive_cancelled := false
    send_cancelled := false }

/-- `initiate_shutdown(reason)` called from task `current`
(main.py lines 73-88): under the lock, return immediately when a reason is
already recorded; otherwise record the reason in both variables and cancel
every sibling task that is not the current task and not yet done. -/
def initiate_shutdown (current : TaskId) (reason : String) (st : ShutdownState) :
    ShutdownState :=
  if st.shutdown_reason ≠ "unknown" then st
  else
    { st with
      shutdown_reason := reason
      session_shutdown_reason := reason
      receive_cancelled :=
        if current ≠ TaskId.receiveTask ∧ st.receive_done = false then true
        else st.receive_cancelled
      send_cancelled :=
        if current ≠ TaskId.sendTask ∧ st.send_done = false then true
        else st.send_cancelled }

/-- The shutdown reasons the source ever passes to `initiate_shutdown`
(main.py lines 110, 148, 152, 288, 292). -/
def shutdownReasons : List String :=
  ["client websocket close", "client receive fatal error",
   "Gemini stream close", "Gemini API fatal error"]

/-- A sequence of `initiate_shutdown` calls applied in order to a state. -/
def runShutdown (st : ShutdownState) (calls : List (TaskId × String)) : ShutdownState :=
  calls.foldl (fun s c => initiate_shutdown c.1 c.2 s) st

/-- Code after `asyncio.gather` (main.py lines 299-302): when no shutdown
reason was recorded, record `internal task completion`. -/
def gatherEpilogue (st : ShutdownState) : ShutdownState :=
  if st.shutdown_reason = "unknown" then
    { st with
      shutdown_reason := "internal task completion"
      session_shutdown_reason := "internal task completion" }
  else st

/-- How many times the upstream Gemini session is closed during one run of
`websocket_gemini`, as a function of the shutdown calls the two loops make:
the session lives in a single `async with client.aio.live.connect(...)`
block (main.py lines 63-65), so whichever path leaves the block -- normal
completion, exception, or cancellation -- the context manager closes it
exactly once. -/
def sessionCloseCount (_calls : List (TaskId × String)) : Nat := 1

/-- Frames a connected client can produce inside the loop: binary audio
frames and text frames (the spec's "sequences of alternating binary/text
frames"). -/
def isDataFrame : WsFrame → Bool
  | .binaryFrame _ => true
  | .textFrame _ => true
  | _ => false

/-- Relation between a frame and the upstream sends its handling performs:
a binary frame is forwarded as exactly one non-final audio send of its
bytes; a text frame sends nothing or exactly one end-of-turn signal. -/
def sendPart (f : WsFrame) (p : List UpstreamSend) : Prop :=
  (∀ d, f = WsFrame.binaryFrame d → p = [UpstreamSend.audio d false]) ∧
  ((∃ t, f = WsFrame.textFrame t) → p = [] ∨ p = [UpstreamSend.turnEnd])

/-! ## Theorems -/

/-- Each frame's sends satisfy `sendPart`, whatever the `turn_open` flag. -/
theorem receiveSendParts_spec (frames : List WsFrame) :
    ∀ t : Bool, List.Forall₂ sendPart frames (receiveSendParts t frames) := by
  induction frames with
  | nil => exact fun _ => .nil
  | cons f rest ih =>
    intro t
    refine .cons ⟨?_, ?_⟩ (ih _)
    · intro d hf
      subst hf
      simp [receiveStep]
    · rintro ⟨tp, hf⟩
      subst hf
      cases tp with
      | none => exact Or.inl rfl
      | some v =>
        simp only [receiveStep]
        split
        · cases t with
          | false => exact Or.inl (by simp [finalize_turn])
          | true => exact Or.inr (by simp [finalize_turn])
        · exact Or.inl rfl

/-- Handling a binary or text frame keeps the loop alive and does not
trigger shutdown. -/
theorem receiveStep_state_of_dataFrame (t : Bool) (f : WsFrame)
    (hf : isDataFrame f = true) :
    (receiveStep ⟨t, false, none⟩ f).state
      = ⟨(receiveStep ⟨t, false, none⟩ f).state.turn_open, false, none⟩ := by
  cases f with
  | binaryFrame d => rfl
  | textFrame p =>
    cases p with
    | none => rfl
    | some v =>
      simp only [receiveStep]
      split
      · simp [finalize_turn]
      · rfl
  | disconnectEvent => simp [isDataFrame] at hf
  | unsupported s => simp [isDataFrame] at hf
  | emptyFrame => simp [isDataFrame] at hf

/-- On binary/text frames only, the loop's send trace is the concatenation
of the per-frame send lists, in frame order. -/
theorem receiveLoop_sends_flatten (frames : List WsFrame)
    (hf : ∀ f ∈ frames, isDataFrame f = true) :
    ∀ t : Bool, (receiveLoop ⟨t, false, none⟩ frames).sends
      = (receiveSendParts t frames).flatten := by
  induction frames with
  | nil => intro t; simp [receiveLoop, receiveSendParts]
  | cons f rest ih =>
    intro t
    have hff : isDataFrame f = true := hf f (List.mem_cons_self f rest)
    have hrest : ∀ g ∈ rest, isDataFrame g = true :=
      fun g hg => hf g (List.mem_cons_of_mem f hg)
    have hstate := receiveStep_state_of_dataFrame t f hff
    have hunfold : receiveLoop (⟨t, false, none⟩ : RecvState) (f :: rest)
        = { state := (receiveLoop (receiveStep ⟨t, false, none⟩ f).state rest).state,
            sends := (receiveStep ⟨t, false, none⟩ f).sends
              ++ (receiveLoop (receiveStep ⟨t, false, none⟩ f).state rest).sends,
            logs := (receiveStep ⟨t, false, none⟩ f).logs
              ++ (receiveLoop (receiveStep ⟨t, false, none⟩ f).state rest).logs } := rfl
    rw [hunfold, receiveSendParts, List.flatten_cons]
    have : receiveLoop (receiveStep ⟨t, false, none⟩ f).state rest
        = receiveLoop ⟨(receiveStep ⟨t, false, none⟩ f).state.turn_open, false, none⟩ rest := by
      rw [← hstate]
    simp only [this, ih hrest]

/-- Claim C5: over any sequence of binary/text client frames, every binary
frame is forwarded upstream as exactly one audio send tagged
`end_of_turn=False`, text frames contribute no audio, the whole send trace
is the in-order concatenation of these per-frame contributions (so every
audio send precedes any end-of-turn signal triggered by a later control
frame); concretely, 3 binary frames followed by `{"type":"end_turn"}`
produce exactly 3 non-final audio sends followed by one end-of-turn send. -/
theorem claim_C5_audio_order (frames : List WsFrame)
    (hf : ∀ f ∈ frames, isDataFrame f = true) (d1 d2 d3 : List Nat) :
    (receive_from_client frames).sends = (receiveSendParts false frames).flatten ∧
    List.Forall₂ sendPart frames (receiveSendParts false frames) ∧
    (receive_from_client
        [WsFrame.binaryFrame d1, WsFrame.binaryFrame d2, WsFrame.binaryFrame d3,
         WsFrame.textFrame (some (some "end_turn"))]).sends
      = [UpstreamSend.audio d1 false, UpstreamSend.audio d2 false,
         UpstreamSend.audio d3 false, UpstreamSend.turnEnd] := by
  refine ⟨receiveLoop_sends_flatten frames hf false, receiveSendParts_spec frames false, ?_⟩
  simp [receive_from_client, receiveLoop, receiveStep, finalize_turn]

/-- Concrete instance of claim C5: the 3-audio-frames-then-end-turn
scenario with byte chunks `[1]`, `[2]`, `[3]`. -/
theorem claim_C5_audio_order_witness :
    (receive_from_client
        [WsFrame.binaryFrame [1], WsFrame.binaryFrame [2], WsFrame.binaryFrame [3],
         WsFrame.textFrame (some (some "end_turn"))]).sends
      = [UpstreamSend.audio [1] false, UpstreamSend.audio [2] false,
         UpstreamSend.audio [3] false, UpstreamSend.turnEnd] :=
  (claim_C5_audio_order
    [WsFrame.binaryFrame [1], WsFrame.binaryFrame [2], WsFrame.binaryFrame [3],
     WsFrame.textFrame (some (some "end_turn"))]
    (by decide) [1] [2] [3]).2.2

/-- Claim C6: an `end_turn` control frame received while no utterance is
open performs no upstream send, leaves the loop state (in particular
`turn_open = false`) unchanged, and is logged as ignored. -/
theorem claim_C6_end_turn_noop (st : RecvState) (h : st.turn_open = false) :
    (receiveStep st (WsFrame.textFrame (some (some "end_turn")))).sends = [] ∧
    (receiveStep st (WsFrame.textFrame (some (some "end_turn")))).state = st ∧
    (receiveStep st (WsFrame.textFrame (some (some "end_turn")))).state.turn_open
      = false ∧
    "[TURN] Ignoring end-turn from client control message; no active utterance"
      ∈ (receiveStep st (WsFrame.textFrame (some (some "end_turn")))).logs := by
  obtain ⟨op, stp, sd⟩ := st
  simp only at h
  subst h
  simp [receiveStep, finalize_turn]

/-- The first loop starts from fewer than three collected issues and never
collects more than three. -/
theorem scoutLoop1_length (rest : List Issue) :
    ∀ acc : List Issue, acc.length < 3 → (scoutLoop1 acc rest).length ≤ 3 := by
  induction rest with
  | nil => intro acc h; exact Nat.le_of_lt (by simpa [scoutLoop1] using h)
  | cons i rest ih =>
    intro acc h
    by_cases hp : i.pull_request.isNone
    · have hlen : (acc ++ [i]).length = acc.length + 1 := by simp
      by_cases hfull : 3 ≤ (acc ++ [i]).length
      · rw [scoutLoop1, if_pos hp, if_pos hfull, hlen]
        exact h
      · rw [scoutLoop1, if_pos hp, if_neg hfull]
        exact ih _ (Nat.lt_of_not_le hfull)
    · rw [scoutLoop1, if_neg hp]
      exact ih _ h

/-- The first loop only ever appends non-PR issues. -/
theorem scoutLoop1_nonPR (rest : List Issue) :
    ∀ acc : List Issue, (∀ i ∈ acc, i.pull_request = none) →
      ∀ i ∈ scoutLoop1 acc rest, i.pull_request = none := by
  induction rest with
  | nil => intro acc h; simpa [scoutLoop1] using h
  | cons i rest ih =>
    intro acc h
    have hacc' : i.pull_request.isNone = true →
        ∀ j ∈ acc ++ [i], j.pull_request = none := by
      intro hp j hj
      rcases List.mem_append.mp hj with hj | hj
      · exact h j hj
      · rw [List.mem_singleton.mp hj]
        exact Option.isNone_iff_eq_none.mp hp
    by_cases hp : i.pull_request.isNone
    · by_cases hfull : 3 ≤ (acc ++ [i]).length
      · rw [scoutLoop1, if_pos hp, if_pos hfull]
        exact hacc' hp
      · rw [scoutLoop1, if_pos hp, if_neg hfull]
        exact ih _ (hacc' hp)
    · rw [scoutLoop1, if_neg hp]
      exact ih _ h

/-- The first loop extends its accumulator by a sublist of its input. -/
theorem scoutLoop1_append (rest : List Issue) :
    ∀ acc : List Issue, ∃ t, scoutLoop1 acc rest = acc ++ t ∧ t.Sublist rest := by
  induction rest with
  | nil => exact fun acc => ⟨[], by simp [scoutLoop1]⟩
  | cons i rest ih =>
    intro acc
    by_cases hp : i.pull_request.isNone
    · by_cases hfull : 3 ≤ (acc ++ [i]).length
      · exact ⟨[i], by rw [scoutLoop1, if_pos hp, if_pos hfull],
          (List.nil_sublist rest).cons₂ i⟩
      · obtain ⟨t, ht, hs⟩ := ih (acc ++ [i])
        refine ⟨i :: t, ?_, hs.cons₂ i⟩
        rw [scoutLoop1, if_pos hp, if_neg hfull, ht, List.append_assoc]
        rfl
    · obtain ⟨t, ht, hs⟩ := ih acc
      exact ⟨t, by rw [scoutLoop1, if_neg hp, ht], hs.cons i⟩

/-- The fill loop appends only `help wanted` issues that are not pull
requests and were not already selected. -/
theorem fillLoop_append (rest : List Issue) :
    ∀ found : List Issue, ∃ t, fillLoop found rest = found ++ t ∧
      ∀ i ∈ t, i ∈ rest ∧ i ∉ found ∧ i.pull_request = none := by
  induction rest with
  | nil => exact fun found => ⟨[], by simp [fillLoop]⟩
  | cons i rest ih =>
    intro found
    by_cases hc : i.pull_request.isNone ∧ i ∉ found
    · by_cases hfull : 3 ≤ (found ++ [i]).length
      · refine ⟨[i], by rw [fillLoop, if_pos hc, if_pos hfull], ?_⟩
        intro j hj
        rw [List.mem_singleton.mp hj]
        exact ⟨List.mem_cons_self i rest, hc.2, Option.isNone_iff_eq_none.mp hc.1⟩
      · obtain ⟨t, ht, hmem⟩ := ih (found ++ [i])
        refine ⟨i :: t, ?_, ?_⟩
        · rw [fillLoop, if_pos hc, if_neg hfull, ht, List.append_assoc]
          rfl
        · intro j hj
          rcases List.mem_cons.mp hj with hj | hj
          · rw [hj]
            exact ⟨List.mem_cons_self i rest, hc.2, Option.isNone_iff_eq_none.mp hc.1⟩
          · obtain ⟨h1, h2, h3⟩ := hmem j hj
            exact ⟨List.mem_cons_of_mem i h1,
              fun hjf => h2 (List.mem_append.mpr (Or.inl hjf)), h3⟩
    · obtain ⟨t, ht, hmem⟩ := ih found
      refine ⟨t, by rw [fillLoop, if_neg hc, ht], ?_⟩
      intro j hj
      obtain ⟨h1, h2, h3⟩ := hmem j hj
      exact ⟨List.mem_cons_of_mem i h1, h2, h3⟩

/-- The fill loop preserves freedom from duplicates: it only appends issues
absent from the list built so far. -/
theorem fillLoop_nodup (rest : List Issue) :
    ∀ found : List Issue, found.Nodup → (fillLoop found rest).Nodup := by
  induction rest with
  | nil => intro found h; simpa [fillLoop] using h
  | cons i rest ih =>
    intro found h
    by_cases hc : i.pull_request.isNone ∧ i ∉ found
    · have h' : (found ++ [i]).Nodup := by simp [List.nodup_append, h, hc.2]
      by_cases hfull : 3 ≤ (found ++ [i]).length
      · rw [fillLoop, if_pos hc, if_pos hfull]
        exact h'
      · rw [fillLoop, if_pos hc, if_neg hfull]
        exact ih _ h'
    · rw [fillLoop, if_neg hc]
      exact ih _ h

/-- The fill loop never grows the selection beyond three issues. -/
theorem fillLoop_length (rest : List Issue) :
    ∀ found : List Issue, found.length < 3 → (fillLoop found rest).length ≤ 3 := by
  induction rest with
  | nil => intro found h; exact Nat.le_of_lt (by simpa [fillLoop] using h)
  | cons i rest ih =>
    intro found h
    by_cases hc : i.pull_request.isNone ∧ i ∉ found
    · have hlen : (found ++ [i]).length = found.length + 1 := by simp
      by_cases hfull : 3 ≤ (found ++ [i]).length
      · rw [fillLoop, if_pos hc, if_pos hfull, hlen]
        exact h
      · rw [fillLoop, if_pos hc, if_neg hfull]
        exact ih _ (Nat.lt_of_not_le hfull)
    · rw [fillLoop, if_neg hc]
      exact ih _ h

/-- The fill loop preserves the all-non-PR property. -/
theorem fillLoop_nonPR (rest : List Issue) :
    ∀ found : List Issue, (∀ i ∈ found, i.pull_request = none) →
      ∀ i ∈ fillLoop found rest, i.pull_request = none := by
  intro found h i hi
  obtain ⟨t, ht, hmem⟩ := fillLoop_append rest found
  rw [ht] at hi
  rcases List.mem_append.mp hi with hi | hi
  · exact h i hi
  · exact (hmem i hi).2.2

/-- The selection built by `scout_github_issues` has at most three issues. -/
theorem selectedIssues_length (r : RepoIssues) : (selectedIssues r).length ≤ 3 := by
  unfold selectedIssues
  by_cases h : (scoutLoop1 [] r.good_first).length < 3
  · rw [if_pos h]
    exact fillLoop_length r.help_wanted _ h
  · rw [if_neg h]
    exact scoutLoop1_length r.good_first [] (by simp)

/-- Every issue in the selection built by `scout_github_issues` is a real
issue, not a pull request. -/
theorem selectedIssues_nonPR (r : RepoIssues) :
    ∀ i ∈ selectedIssues r, i.pull_request = none := by
  unfold selectedIssues
  have h1 : ∀ i ∈ scoutLoop1 [] r.good_first, i.pull_request = none :=
    scoutLoop1_nonPR r.good_first [] (by simp)
  by_cases h : (scoutLoop1 [] r.good_first).length < 3
  · rw [if_pos h]
    exact fillLoop_nonPR r.help_wanted _ h1
  · rw [if_neg h]
    exact h1

/-- Claim C7: `scout_github_issues` always returns a string and never
raises (the embedding is total). When the GitHub access raises, the result
is the textual error message of the `except` branch, which contains the
repository name; on success the built summary covers the selected issues:
at most 3 of them, with pull requests filtered out. -/
theorem claim_C7_scout_total (repo_name : String) (api : Except String RepoIssues) :
    (∀ e, api = Except.error e →
      scout_github_issues repo_name api
        = "Error fetching issues for " ++ repo_name ++ ". Exception: " ++ e ∧
      containsStr (scout_github_issues repo_name api) repo_name) ∧
    (∀ r, api = Except.ok r →
      (selectedIssues r).length ≤ 3 ∧
      ∀ i ∈ selectedIssues r, i.pull_request = none) := by
  constructor
  · intro e he
    subst he
    refine ⟨rfl, "Error fetching issues for ", ". Exception: " ++ e, ?_⟩
    exact String.append_assoc _ _ _
  · intro r hr
    exact ⟨selectedIssues_length r, selectedIssues_nonPR r⟩

/-- Concrete instances of claim C7: a raising GitHub access yields the
error message, and a successful empty query yields at most 3 issues. -/
theorem claim_C7_scout_total_witness :
    scout_github_issues "octocat/x" (Except.error "404")
      = "Error fetching issues for " ++ "octocat/x" ++ ". Exception: " ++ "404" ∧
    (selectedIssues ⟨[], []⟩).length ≤ 3 := by
  have h1 := claim_C7_scout_total "octocat/x" (Except.error "404")
  have h2 := claim_C7_scout_total "octocat/x" (Except.ok ⟨[], []⟩)
  exact ⟨(h1.1 "404" rfl).1, (h2.2 ⟨[], []⟩ rfl).1⟩

/-- Claim C10: when the `good first issue` query returns distinct issues,
the list built by `scout_github_issues` has no duplicates; it is the
issues selected from the `good first issue` query followed by fill issues,
each of which comes from the `help wanted` query and was not already
selected; no fill issue is added when the first loop already selected 3;
and the total is capped at 3. -/
theorem claim_C10_selection_policy (r : RepoIssues) (hnd : r.good_first.Nodup) :
    (selectedIssues r).Nodup ∧
    (∃ extra, selectedIssues r = scoutLoop1 [] r.good_first ++ extra ∧
      (∀ i ∈ extra, i ∈ r.help_wanted ∧ i ∉ scoutLoop1 [] r.good_first) ∧
      ((scoutLoop1 [] r.good_first).length = 3 → extra = [])) ∧
    (selectedIssues r).length ≤ 3 := by
  obtain ⟨t, ht, hs⟩ := scoutLoop1_append r.good_first []
  have hgf : (scoutLoop1 [] r.good_first).Nodup := by
    rw [ht]
    simpa using hs.nodup hnd
  refine ⟨?_, ?_, selectedIssues_length r⟩
  · unfold selectedIssues
    by_cases h : (scoutLoop1 [] r.good_first).length < 3
    · rw [if_pos h]
      exact fillLoop_nodup r.help_wanted _ hgf
    · rw [if_neg h]
      exact hgf
  · unfold selectedIssues
    by_cases h : (scoutLoop1 [] r.good_first).length < 3
    · rw [if_pos h]
      obtain ⟨extra, he, hmem⟩ := fillLoop_append r.help_wanted (scoutLoop1 [] r.good_first)
      exact ⟨extra, he, fun i hi => ⟨(hmem i hi).1, (hmem i hi).2.1⟩,
        fun h3 => absurd h3 (by omega)⟩
    · rw [if_neg h]
      exact ⟨[], by simp, by simp, fun _ => rfl⟩

/-- Concrete instance of claim C10: one `good first issue` also labelled
`help wanted` is not selected twice. -/
theorem claim_C10_selection_policy_witness :
    (selectedIssues ⟨[⟨1, "a", none⟩], [⟨1, "a", none⟩, ⟨2, "b", none⟩]⟩).Nodup ∧
    (selectedIssues ⟨[⟨1, "a", none⟩], [⟨1, "a", none⟩, ⟨2, "b", none⟩]⟩).length ≤ 3 := by
  have h := claim_C10_selection_policy
    ⟨[⟨1, "a", none⟩], [⟨1, "a", none⟩, ⟨2, "b", none⟩]⟩ (by decide)
  exact ⟨h.1, h.2.2⟩

/-- Concrete instance of claim C6 at the initial loop state. -/
theorem claim_C6_end_turn_noop_witness :
    (receiveStep ⟨false, false, none⟩
        (WsFrame.textFrame (some (some "end_turn")))).sends = [] ∧
    (receiveStep ⟨false, false, none⟩
        (WsFrame.textFrame (some (some "end_turn")))).state = ⟨false, false, none⟩ := by
  have h := claim_C6_end_turn_noop ⟨false, false, none⟩ rfl
  exact ⟨h.1, h.2.1⟩

/-- Claim C1 is violated by the code: the same tool names are registered
both in `LIVE_CONFIG` for automatic execution inside the upstream SDK
session (main.py line 39) and in `AVAILABLE_TOOLS` for manual local
execution of intercepted `tool_call` events (main.py lines 203-230); the
last conjunct shows the manual path really executes a registered tool (its
invocation outcome becomes the response payload). -/
theorem claim_C1_both_ownership_models :
    "scout_github_issues" ∈ LIVE_CONFIG_tools ∧
    "scout_github_issues" ∈ AVAILABLE_TOOLS ∧
    "analyze_issue_code" ∈ LIVE_CONFIG_tools ∧
    "analyze_issue_code" ∈ AVAILABLE_TOOLS ∧
    ∀ (id : String) (args : Args) (r : String),
      (processCall (fun _ _ => Except.ok r) ⟨"scout_github_issues", id, args⟩).2.response
        = ToolOutcome.result r := by
  refine ⟨by decide, by decide, by decide, by decide, ?_⟩
  intro id args r
  simp [processCall, AVAILABLE_TOOLS]

/-- Claim C3: for a `tool_call` naming a function absent from
`AVAILABLE_TOOLS`, `send_to_client` never raises and produces a
`FunctionResponse` carrying the same correlation id whose payload is an
error string containing the unknown tool's name, and that response is part
of the batch sent back for the event. -/
theorem claim_C3_unknown_tool (exec : ToolExec) (call : FunctionCall)
    (h : call.name ∉ AVAILABLE_TOOLS) :
    (processCall exec call).2.id = call.id ∧
    (processCall exec call).2.response = ToolOutcome.error ("Unknown tool: " ++ call.name) ∧
    containsStr ("Unknown tool: " ++ call.name) call.name ∧
    ∀ calls, call ∈ calls →
      (processCall exec call).2 ∈ (processToolCall exec calls).2 := by
  refine ⟨?_, ?_, ⟨"Unknown tool: ", "", by rw [String.append_empty]⟩, ?_⟩
  · simp [processCall, h]
  · simp [processCall, h]
  · intro calls hc
    simpa [processToolCall] using List.mem_map_of_mem (fun c => (processCall exec c).2) hc

/-- Concrete instance of claim C3 at the unregistered name `bogus`. -/
theorem claim_C3_unknown_tool_witness :
    (processCall (fun _ _ => Except.ok "ok") ⟨"bogus", "id-1", []⟩).2.id = "id-1" ∧
    (processCall (fun _ _ => Except.ok "ok") ⟨"bogus", "id-1", []⟩).2.response
      = ToolOutcome.error ("Unknown tool: " ++ "bogus") := by
  have h := claim_C3_unknown_tool (fun _ _ => Except.ok "ok") ⟨"bogus", "id-1", []⟩ (by decide)
  exact ⟨h.1, h.2.1⟩

/-- Claim C4: when a registered tool's invocation raises, the dispatch step
of `send_to_client` catches the exception and produces a response for the
same correlation id whose payload is exactly the exception's message
(`response={"error": str(e)}`); the exception is never propagated (the
embedding is a total function). -/
theorem claim_C4_tool_exception (exec : ToolExec) (call : FunctionCall) (msg : String)
    (h1 : call.name ∈ AVAILABLE_TOOLS)
    (h2 : exec call.name call.args = Except.error msg) :
    (processCall exec call).2.id = call.id ∧
    (processCall exec call).2.response = ToolOutcome.error msg ∧
    containsStr msg msg := by
  refine ⟨?_, ?_, ⟨"", "", by rw [String.empty_append, String.append_empty]⟩⟩ <;>
    simp [processCall, h1, h2]

/-- Concrete instance of claim C4: `scout_github_issues` raising `boom`. -/
theorem claim_C4_tool_exception_witness :
    (processCall (fun _ _ => Except.error "boom")
        ⟨"scout_github_issues", "id-2", []⟩).2.response
      = ToolOutcome.error "boom" :=
  (claim_C4_tool_exception (fun _ _ => Except.error "boom")
    ⟨"scout_github_issues", "id-2", []⟩ "boom" (by decide) rfl).2.1

/-- Claim C8: against a repository with zero matching open issues,
`scout_github_issues("octocat/Hello-World")` returns (does not raise) the
string `No open ... issues found in octocat/Hello-World.`, which contains
`No open` and `issues`. -/
theorem claim_C8_no_open_issues :
    scout_github_issues "octocat/Hello-World" (Except.ok ⟨[], []⟩)
      = "No open \x27good first issue\x27 or \x27help wanted\x27 issues found in octocat/Hello-World."
    ∧ containsStr (scout_github_issues "octocat/Hello-World" (Except.ok ⟨[], []⟩)) "No open"
    ∧ containsStr (scout_github_issues "octocat/Hello-World" (Except.ok ⟨[], []⟩)) "issues" := by
  refine ⟨by decide,
    ⟨"", " \x27good first issue\x27 or \x27help wanted\x27 issues found in octocat/Hello-World.",
      by decide⟩,
    ⟨"No open \x27good first issue\x27 or \x27help wanted\x27 ",
      " found in octocat/Hello-World.", by decide⟩⟩

/-- Claim C9: the `tool_execution` notification to the client is produced
for every function call of a `tool_call` event, before the name is looked
up in `AVAILABLE_TOOLS` -- in particular it is still emitted when the name
is unregistered and the call then fails with the unknown-tool error. -/
theorem claim_C9_notification_before_lookup (exec : ToolExec) (call : FunctionCall) :
    (processCall exec call).1 = ⟨"tool_execution", call.name, call.args⟩ ∧
    (call.name ∉ AVAILABLE_TOOLS →
      (processCall exec call).1 = ⟨"tool_execution", call.name, call.args⟩ ∧
      (processCall exec call).2.response
        = ToolOutcome.error ("Unknown tool: " ++ call.name)) ∧
    ∀ calls, (processToolCall exec calls).1
      = calls.map (fun c => ⟨"tool_execution", c.name, c.args⟩) := by
  refine ⟨rfl, fun h => ⟨rfl, by simp [processCall, h]⟩, fun calls => rfl⟩

/-- Once a shutdown reason is recorded, `initiate_shutdown` returns without
touching the state. -/
theorem initiate_shutdown_noop {st : ShutdownState} (h : st.shutdown_reason ≠ "unknown")
    (c : TaskId) (r : String) : initiate_shutdown c r st = st := by
  simp [initiate_shutdown, h]

/-- Once a shutdown reason is recorded, any further sequence of
`initiate_shutdown` calls leaves the state unchanged. -/
theorem runShutdown_noop {st : ShutdownState} (h : st.shutdown_reason ≠ "unknown") :
    ∀ calls : List (TaskId × String), runShutdown st calls = st := by
  intro calls
  induction calls with
  | nil => rfl
  | cons c rest ih =>
    show runShutdown (initiate_shutdown c.1 c.2 st) rest = st
    rw [initiate_shutdown_noop h, ih]

/-- Every reason the source passes to `initiate_shutdown` differs from the
sentinel `unknown`. -/
theorem shutdownReason_ne_unknown {r : String} (h : r ∈ shutdownReasons) :
    r ≠ "unknown" := by
  simp only [shutdownReasons, List.mem_cons, List.not_mem_nil, or_false] at h
  rcases h with h | h | h | h <;> subst h <;> decide

/-- Claim C2: shutdown is idempotent. For any sequence of
`initiate_shutdown` calls from either loop, the resulting state is the one
produced by the first call alone; the first call records its reason in both
reason variables and cancels exactly the sibling task; every later call is
a no-op; and the upstream session is closed exactly once (the `async with`
context manager closes it on block exit whichever path is taken). -/
theorem claim_C2_shutdown_idempotent (current : TaskId) (reason : String)
    (hr : reason ∈ shutdownReasons) (rest : List (TaskId × String)) :
    runShutdown initialShutdownState ((current, reason) :: rest)
      = initiate_shutdown current reason initialShutdownState ∧
    (initiate_shutdown current reason initialShutdownState).shutdown_reason = reason ∧
    (initiate_shutdown current reason initialShutdownState).session_shutdown_reason
      = reason ∧
    (∀ c r, initiate_shutdown c r (initiate_shutdown current reason initialShutdownState)
      = initiate_shutdown current reason initialShutdownState) ∧
    (current = TaskId.receiveTask →
      (initiate_shutdown current reason initialShutdownState).send_cancelled = true ∧
      (initiate_shutdown current reason initialShutdownState).receive_cancelled = false) ∧
    (current = TaskId.sendTask →
      (initiate_shutdown current reason initialShutdownState).receive_cancelled = true ∧
      (initiate_shutdown current reason initialShutdownState).send_cancelled = false) ∧
    sessionCloseCount ((current, reason) :: rest) = 1 := by
  have hne : reason ≠ "unknown" := shutdownReason_ne_unknown hr
  have hreason : (initiate_shutdown current reason initialShutdownState).shutdown_reason
      = reason := by
    simp [initiate_shutdown, initialShutdownState]
  have hrec : (initiate_shutdown current reason initialShutdownState).shutdown_reason
      ≠ "unknown" := by rw [hreason]; exact hne
  refine ⟨?_, hreason, ?_, fun c r => initiate_shutdown_noop hrec c r, ?_, ?_, rfl⟩
  · show runShutdown (initiate_shutdown current reason initialShutdownState) rest
      = initiate_shutdown current reason initialShutdownState
    exact runShutdown_noop hrec rest
  · simp [initiate_shutdown, initialShutdownState]
  · intro h
    subst h
    simp [initiate_shutdown, initialShutdownState]
  · intro h
    subst h
    simp [initiate_shutdown, initialShutdownState]

/-- Concrete instance of claim C2: the receive loop triggers shutdown with
`client websocket close`, then the send loop also tries; the second trigger
changes nothing. -/
theorem claim_C2_shutdown_idempotent_witness :
    runShutdown initialShutdownState
        [(TaskId.receiveTask, "client websocket close"),
         (TaskId.sendTask, "Gemini stream close")]
      = initiate_shutdown TaskId.receiveTask "client websocket close"
          initialShutdownState ∧
    (initiate_shutdown TaskId.receiveTask "client websocket close"
        initialShutdownState).shutdown_reason = "client websocket close" ∧
    (initiate_shutdown TaskId.receiveTask "client websocket close"
        initialShutdownState).send_cancelled = true := by
  have h := claim_C2_shutdown_idempotent TaskId.receiveTask "client websocket close"
    (by decide) [(TaskId.sendTask, "Gemini stream close")]
  exact ⟨h.1, h.2.1, (h.2.2.2.2.1 rfl).1⟩

/-- Concrete instance of claim C9 at the unregistered name `ghost`. -/
theorem claim_C9_notification_before_lookup_witness :
    (processCall (fun _ _ => Except.ok "r") ⟨"ghost", "id-3", []⟩).1
      = ⟨"tool_execution", "ghost", []⟩ ∧
    (processCall (fun _ _ => Except.ok "r") ⟨"ghost", "id-3", []⟩).2.response
      = ToolOutcome.error ("Unknown tool: " ++ "ghost") := by
  have h := claim_C9_notification_before_lookup (fun _ _ => Except.ok "r") ⟨"ghost", "id-3", []⟩
  exact ⟨h.1, (h.2.1 (by decide)).2⟩

end RepoRecon
